import Mathlib

/-!
Verification of the HTTP-response error layer of the MCP TypeScript SDK.

The embedding models:
* the WHATWG `Headers` object as an insertion-ordered multimap with
  lowercased names (`HeadersM`, `hset`, `happend`, `hget`, `hentries`);
* JavaScript runtime values (`JSValue`) far enough to state what
  `isHttpResponseError` and `extractHttpErrorInfo`
  (src/types/http-response-error.ts) compute;
* the components whose implementation is not among the provided sources
  (dispatch interceptor, error synthesizer, client reconstruction) as
  definitions modelled from the specification, each marked as such.
-/

/-- ASCII case-fold of a single character: `A`–`Z` map to `a`–`z`,
everything else is unchanged. -/
def asciiLowerChar (c : Char) : Char :=
  if 'A' ≤ c ∧ c ≤ 'Z' then Char.ofNat (c.toNat + 32) else c

/-- ASCII lowercase of a string (header-name case-folding). -/
def asciiLower (s : String) : String := String.mk (s.data.map asciiLowerChar)

/-- The internal header list of a WHATWG `Headers` object: insertion-ordered,
names stored lowercased, each name carrying its list of values in insertion
order. -/
abbrev HeadersM := List (String × List String)

/-- `Headers.set(name, value)`: replaces the values of an existing entry in
place, or appends a fresh entry; names are stored case-folded. -/
def hset (h : HeadersM) (name value : String) : HeadersM :=
  match h with
  | [] => [(asciiLower name, [value])]
  | (k, vs) :: rest =>
    if k = asciiLower name then (k, [value]) :: rest
    else (k, vs) :: hset rest name value

/-- `Headers.append(name, value)`: adds a value to an existing entry in
place, or appends a fresh entry; names are stored case-folded. -/
def happend (h : HeadersM) (name value : String) : HeadersM :=
  match h with
  | [] => [(asciiLower name, [value])]
  | (k, vs) :: rest =>
    if k = asciiLower name then (k, vs ++ [value]) :: rest
    else (k, vs) :: happend rest name value

/-- `Headers.get(name)`: case-insensitive lookup; the values of the name are
combined into one string joined with `", "`. -/
def hget (h : HeadersM) (name : String) : Option String :=
  match h with
  | [] => none
  | (k, vs) :: rest =>
    if k = asciiLower name then some (String.intercalate ", " vs)
    else hget rest name

/-- `Headers.entries()`: one `(name, combined value)` pair per header name,
multiple values of a name combined into a single `", "`-joined string. -/
def hentries (h : HeadersM) : List (String × String) :=
  h.map (fun p => (p.1, String.intercalate ", " p.2))

/-- A native HTTP response as observed by the client: status, status text,
headers and the body read fully as text. -/
structure NativeResponse where
  status : Nat
  statusText : String
  headers : HeadersM
  bodyText : String
deriving DecidableEq

/-- The HTTP-Response Descriptor a handler throws (a `Response` value):
status, optional status text, ordered header multimap, optional body. -/
structure Descriptor where
  status : Nat
  statusText : Option String
  headers : HeadersM
  body : Option String
deriving DecidableEq

/-- JavaScript runtime values, deep enough for the type guard and the
extractor: `error` is a value that is `instanceof Error` (its message plus
its own named properties), `obj` a plain object, `headersObj` a `Headers`
instance and `responseObj` a `Response` instance. -/
inductive JSValue where
  | undefined
  | null
  | bool (b : Bool)
  | num (n : Int)
  | str (s : String)
  | error (message : String) (props : List (String × JSValue))
  | obj (props : List (String × JSValue))
  | headersObj (h : HeadersM)
  | responseObj (r : NativeResponse)

/-- `v instanceof Error`. -/
def isErrorInstance : JSValue → Bool
  | .error _ _ => true
  | _ => false

/-- `typeof v === 'object'` (true for `null`, objects, errors, `Headers`
and `Response` instances). -/
def typeofObject : JSValue → Bool
  | .null | .error _ _ | .obj _ | .headersObj _ | .responseObj _ => true
  | _ => false

/-- The own named properties of an error or plain object. -/
def ownProps : JSValue → List (String × JSValue)
  | .error _ ps => ps
  | .obj ps => ps
  | _ => []

/-- `name in v` for the property names the guard probes (none of which sit
on `Error.prototype`, so own-property presence is faithful). -/
def hasProp (v : JSValue) (name : String) : Bool :=
  (ownProps v).any (fun p => p.1 = name)

/-- Property read `v[name]`; `undefined` when absent. -/
def getProp (v : JSValue) (name : String) : JSValue :=
  match (ownProps v).find? (fun p => p.1 = name) with
  | some p => p.2
  | none => .undefined

/-- Embeds `isHttpResponseError` from src/types/http-response-error.ts:
`error instanceof Error && typeof error === 'object' && 'status' in error
&& 'response' in error && 'headers' in error`. -/
def isHttpResponseError (v : JSValue) : Bool :=
  isErrorInstance v && typeofObject v &&
    hasProp v "status" && hasProp v "response" && hasProp v "headers"

/-- The discriminated record returned by `extractHttpErrorInfo`. -/
inductive ErrorInfo where
  | httpResponse (status statusText body : JSValue)
      (headers : List (String × String)) (response : JSValue)
  | otherError (e : JSValue)

/-- Calling `.entries()` on a value: only a `Headers` instance supports it
in this universe; on anything else the call throws a TypeError (`none`). -/
def entriesOf : JSValue → Option (List (String × String))
  | .headersObj h => some (hentries h)
  | _ => none

/-- Embeds `extractHttpErrorInfo` from src/types/http-response-error.ts.
On the guard's true branch it reads `status`, `statusText`, `body`,
`response` and builds `headers` as
`Object.fromEntries(error.headers.entries())`; `none` models the TypeError
thrown when `error.headers` has no `entries` method. -/
def extractHttpErrorInfo (v : JSValue) : Option ErrorInfo :=
  if isHttpResponseError v then
    match entriesOf (getProp v "headers") with
    | some hs =>
      some (.httpResponse (getProp v "status") (getProp v "statusText")
        (getProp v "body") hs (getProp v "response"))
    | none => none
  else
    some (.otherError v)

/-- The structured `data` of the synthesized RPC error payload
(wire shape of §3/§6 of the spec, as exercised by the README tests). -/
structure RpcErrorData where
  status : Nat
  statusText : String
  headers : List (String × String)
  body : Option String
  originalHttpResponse : Bool
deriving DecidableEq

/-- The synthesized RPC error payload: `code`, `message`, structured
`data`. -/
structure RpcErrorPayload where
  code : Nat
  message : String
  data : RpcErrorData
deriving DecidableEq

/-- Modelled from the spec: the Header Normalizer (§4.3), whose
implementation is not among the provided sources. Lowercases every header
name (ASCII case-fold) and, keeping distinct names in their original
order, joins the values of each name with `", "` in insertion order. -/
def normalizeHeaders (h : HeadersM) : List (String × String) :=
  h.map (fun p => (asciiLower p.1, String.intercalate ", " p.2))

/-- Modelled from the spec: the Error Synthesizer (§4.4), whose
implementation is not among the provided sources. Builds the RPC error
payload from a descriptor: `code` is the status, `message` the template
`"HTTP {status}: {statusText}"` with `statusText` defaulting to the empty
string, `data` carries status, statusText, normalized headers, the body
(`none` models `null` when absent) and the `originalHttpResponse: true`
tag. -/
def synthesize (d : Descriptor) : RpcErrorPayload :=
  let st := d.statusText.getD ""
  { code := d.status
    message := "HTTP " ++ toString d.status ++ ": " ++ st
    data :=
      { status := d.status
        statusText := st
        headers := normalizeHeaders d.headers
        body := d.body
        originalHttpResponse := true } }

/-- Modelled from the spec: the native-write path of the Dispatch
Interceptor (§4.2) composed with the HTTP exchange, whose implementation
is not among the provided sources. The descriptor's status, status text,
headers and body are written unchanged as a real HTTP response; an absent
status text renders as the empty string and an absent body as an empty
body, which the client later reads as empty text. -/
def writeNative (d : Descriptor) : NativeResponse :=
  { status := d.status
    statusText := d.statusText.getD ""
    headers := d.headers
    bodyText := d.body.getD "" }

/-- The outcome of one handler invocation, as the tagged union suggested
by §9 of the spec: a normal result, a thrown HTTP-Response Descriptor, or
any other thrown error. -/
inductive HandlerOutcome where
  | normal (v : JSValue)
  | httpResponse (d : Descriptor)
  | otherError (e : JSValue)

/-- What the Dispatch Interceptor hands back to the RPC engine: the
untouched result, a native HTTP write, a synthesized RPC error frame, or
an ordinary error passed through to the surrounding RPC error path. -/
inductive DispatchResult where
  | rpcResult (v : JSValue)
  | nativeHttp (r : NativeResponse)
  | rpcError (p : RpcErrorPayload)
  | ordinaryError (e : JSValue)

/-- Modelled from the spec: the Dispatch Interceptor (§4.2), whose
implementation is not among the provided sources. Normal results pass
through; a thrown descriptor is written natively when the transport
supports native HTTP and synthesized into an RPC error otherwise; any
other thrown error goes untouched to the surrounding RPC error path. -/
def dispatch (supportsNativeHttp : Bool) : HandlerOutcome → DispatchResult
  | .normal v => .rpcResult v
  | .httpResponse d =>
    if supportsNativeHttp then .nativeHttp (writeNative d)
    else .rpcError (synthesize d)
  | .otherError e => .ordinaryError e

/-- The synthesized RPC error payload carried by a dispatch result, when
there is one. -/
def dispatchPayload : DispatchResult → Option RpcErrorPayload
  | .rpcError p => some p
  | _ => none

/-- The reconstructed client error: a standard error extended with
`status`, `statusText`, `headers` (multimap, case-insensitive lookup),
`body` and the `response` value (genuine on the native path, best-effort
rebuilt on the synthesized path). -/
structure ReconError where
  message : String
  status : Nat
  statusText : String
  headers : HeadersM
  body : Option String
  response : NativeResponse
deriving DecidableEq

/-- Modelled from the spec: Client Reconstruction branch 1 (§4.5), whose
implementation is not among the provided sources. From a native HTTP
response: `status`, `statusText` and `headers` as received, `body` the
response body read fully as text, `response` the response value itself,
`message` the transport template
`"Error POSTing to endpoint (HTTP {status}): {body-or-statusText}"`. -/
def reconstructFromResponse (r : NativeResponse) : ReconError :=
  { message := "Error POSTing to endpoint (HTTP " ++ toString r.status ++ "): "
      ++ (if r.bodyText = "" then r.statusText else r.bodyText)
    status := r.status
    statusText := r.statusText
    headers := r.headers
    body := some r.bodyText
    response := r }

/-- Modelled from the spec: Client Reconstruction branch 2 (§4.5), whose
implementation is not among the provided sources. From an RPC error whose
`data.originalHttpResponse` is `true`: fields come from `data`, headers
are rebuilt as single-valued entries, `response` is best-effort rebuilt
from the same fields and `message` is `"MCP error {code}: {rpc-message}"`;
any other RPC error is not reconstructed (`none`). -/
def reconstructFromPayload (p : RpcErrorPayload) : Option ReconError :=
  if p.data.originalHttpResponse then
    let hs : HeadersM := p.data.headers.map (fun q => (q.1, [q.2]))
    some
      { message := "MCP error " ++ toString p.code ++ ": " ++ p.message
        status := p.data.status
        statusText := p.data.statusText
        headers := hs
        body := p.data.body
        response :=
          { status := p.data.status
            statusText := p.data.statusText
            headers := hs
            bodyText := (p.data.body).getD "" } }
  else none

/-- The reconstructed client error as the JavaScript value handed to the
caller: an `Error` instance carrying `status`, `statusText`, `headers`,
`body` and `response` properties. -/
def ReconError.toValue (e : ReconError) : JSValue :=
  .error e.message
    [("status", .num (e.status : Int)),
     ("statusText", .str e.statusText),
     ("headers", .headersObj e.headers),
     ("body", match e.body with | some s => .str s | none => .null),
     ("response", .responseObj e.response)]

/-- Modelled from the spec: §4.5 branch 3 — a call that failed with an
ordinary handler error reaches the caller as a plain RPC error value with
`code`, `message` and `data` properties and no HTTP fields attached. -/
def ordinaryClientError (code : Int) (message : String) (data : JSValue) : JSValue :=
  .error message [("code", .num code), ("data", data)]

/-- End-to-end non-native path for a thrown descriptor: synthesize the RPC
error payload, then reconstruct the client error from it. -/
def clientErrorNonNative (d : Descriptor) : Option ReconError :=
  reconstructFromPayload (synthesize d)

/-- End-to-end native path for a thrown descriptor: write the native HTTP
response, then reconstruct the client error from it. -/
def clientErrorNative (d : Descriptor) : ReconError :=
  reconstructFromResponse (writeNative d)

/-- The §8 scenario descriptor: 401 with a challenge header and body. -/
def dUnauthorized : Descriptor :=
  { status := 401
    statusText := some "Unauthorized"
    headers := hset [] "WWW-Authenticate" "Bearer realm=\"x\""
    body := some "Unauthorized" }

/-- The descriptor thrown by the `auth-required` tool of
src/integration-tests/http-response-streaming.test.ts. -/
def dStreamTest : Descriptor :=
  { status := 401
    statusText := some "Unauthorized"
    headers := hset [] "WWW-Authenticate"
      "Bearer realm=\"api.example.com\", error=\"invalid_token\""
    body := some "Unauthorized" }

/-- A descriptor with no body (and no challenge headers). -/
def dNoBody : Descriptor :=
  { status := 204, statusText := some "No Content", headers := [], body := none }

/-- A descriptor that omits its status text. -/
def d401NoText : Descriptor :=
  { status := 401, statusText := none, headers := [], body := none }

/-- An `Error` instance whose `status`, `response` and `headers` properties
exist but whose `headers` is a number, not a `Headers` object. -/
def vBadHeaders : JSValue :=
  .error "boom" [("status", .num 401), ("response", .null), ("headers", .num 42)]

/-- A plain (non-`Error`) object duck-typed with every HTTP field. -/
def vDuckObject : JSValue :=
  .obj [("status", .num 401), ("statusText", .str "Unauthorized"),
        ("headers", .headersObj []), ("body", .str "b"), ("response", .null)]

/-- An `Error` instance with the three probed properties present but of
arbitrary types, and neither `body` nor `statusText`. -/
def vOddTypedError : JSValue :=
  .error "odd"
    [("status", .str "not-a-number"), ("response", .num 7), ("headers", .bool true)]

/-- A concrete native response value. -/
def rSample : NativeResponse :=
  { status := 401, statusText := "Unauthorized",
    headers := [("www-authenticate", ["Bearer"])], bodyText := "Unauthorized" }

/-- A well-formed reconstructed error value whose `headers` property is a
genuine `Headers` object. -/
def vGoodErr : JSValue :=
  .error "e"
    [("status", .num 401), ("statusText", .str "Unauthorized"),
     ("headers", .headersObj [("x", ["a"])]), ("body", .str "b"),
     ("response", .responseObj rSample)]

/-- An RPC error payload not tagged `originalHttpResponse`. -/
def pUntagged : RpcErrorPayload :=
  { code := 500
    message := "boom"
    data :=
      { status := 500, statusText := "", headers := [], body := none,
        originalHttpResponse := false } }

/-- A `set-cookie` header with two values. -/
def cookieMulti : HeadersM := [("set-cookie", ["a", "b"])]

/-- A `set-cookie` header with the single pre-joined value. -/
def cookieJoined : HeadersM := [("set-cookie", ["a, b"])]

/-- An HTTP response error value around a given headers object. -/
def mkCookieErr (h : HeadersM) : JSValue :=
  .error "cookies" [("status", .num 200), ("response", .null), ("headers", .headersObj h)]

/-- The guard is exactly: an `Error` instance carrying `status`, `response`
and `headers` properties (the redundant `typeof` conjunct drops away). -/
theorem isHttpResponseError_shape_eq (v : JSValue) :
    isHttpResponseError v =
      (isErrorInstance v && hasProp v "status" && hasProp v "response" &&
        hasProp v "headers") := by
  cases v <;> rfl

/-- C1: every error produced by the native path and by the synthesized
path satisfies `isHttpResponseError`; an ordinary handler-thrown error,
delivered as a plain RPC error value, does not; the synthesized payload is
tagged `originalHttpResponse: true` and only so-tagged payloads are
reconstructed; and the predicate holds exactly for `Error` instances
carrying `status`, `response` and `headers`. -/
theorem isHttpResponseError_discriminates_paths :
    (∀ d : Descriptor, isHttpResponseError (clientErrorNative d).toValue = true) ∧
    (∀ d : Descriptor,
      Option.all (fun r => isHttpResponseError r.toValue) (clientErrorNonNative d) = true) ∧
    (∀ d : Descriptor, (clientErrorNonNative d).isSome = true) ∧
    (∀ (c : Int) (m : String) (v : JSValue),
      isHttpResponseError (ordinaryClientError c m v) = false) ∧
    (∀ d : Descriptor, (synthesize d).data.originalHttpResponse = true) ∧
    (∀ p : RpcErrorPayload,
      p.data.originalHttpResponse = false → reconstructFromPayload p = none) ∧
    (∀ v : JSValue, isHttpResponseError v =
      (isErrorInstance v && hasProp v "status" && hasProp v "response" &&
        hasProp v "headers")) := by
  refine ⟨fun d => rfl, fun d => rfl, fun d => rfl, fun c m v => rfl, fun d => rfl,
    fun p h => ?_, isHttpResponseError_shape_eq⟩
  simp [reconstructFromPayload, h]

/-- C1 witness: a payload not tagged `originalHttpResponse: true` is not
reconstructed into an HTTP response error. -/
theorem isHttpResponseError_discriminates_paths_witness :
    reconstructFromPayload pUntagged = none :=
  isHttpResponseError_discriminates_paths.2.2.2.2.2.1 pUntagged rfl

/-- C2 counterexample: for a descriptor with an absent body, the native
path reconstructs `body` as the empty string read from the empty response
body, not as `null`; the synthesized path yields `null`, so the two paths
do not both map the absent body to `null` as the claim states. -/
theorem native_absent_body_not_null :
    (clientErrorNative dNoBody).body = some "" ∧
    Option.map ReconError.body (clientErrorNonNative dNoBody) = some none ∧
    (clientErrorNative dNoBody).body ≠ none :=
  ⟨rfl, rfl, fun h => Option.noConfusion h⟩

/-- C2 (amended): both paths reconstruct the descriptor's status; for a
present body both reconstruct exactly that body; for an absent body the
synthesized path yields `null` while the native path yields the empty
string (the absent body read as text). -/
theorem paths_agree_on_status_and_present_body (d : Descriptor) :
    (clientErrorNative d).status = d.status ∧
    Option.map ReconError.status (clientErrorNonNative d) = some d.status ∧
    (∀ b : String, d.body = some b →
      (clientErrorNative d).body = some b ∧
      Option.map ReconError.body (clientErrorNonNative d) = some (some b)) ∧
    (d.body = none →
      (clientErrorNative d).body = some "" ∧
      Option.map ReconError.body (clientErrorNonNative d) = some none) := by
  refine ⟨rfl, rfl, fun b hb => ?_, fun hb => ?_⟩ <;>
    simp [clientErrorNative, clientErrorNonNative, reconstructFromResponse,
      reconstructFromPayload, writeNative, synthesize, hb]

/-- C2 witness: at the §8 descriptor both paths reconstruct the body
`"Unauthorized"`. -/
theorem paths_agree_witness :
    (clientErrorNative dUnauthorized).body = some "Unauthorized" ∧
    Option.map ReconError.body (clientErrorNonNative dUnauthorized) =
      some (some "Unauthorized") :=
  (paths_agree_on_status_and_present_body dUnauthorized).2.2.1 "Unauthorized" rfl

/-- C3: the synthesized payload has `code` equal to the descriptor status,
the fixed message template `HTTP {status}: {statusText}`, `data.status`
and `data.statusText` copied from the descriptor, normalized headers, the
descriptor body (`null` when absent) and the literal tag
`originalHttpResponse: true`; at the §8 descriptor it is exactly the
payload the spec displays. -/
theorem synthesize_payload_fields (d : Descriptor) :
    (synthesize d).code = d.status ∧
    (synthesize d).message = "HTTP " ++ toString d.status ++ ": " ++ d.statusText.getD "" ∧
    (synthesize d).data.status = d.status ∧
    (synthesize d).data.statusText = d.statusText.getD "" ∧
    (synthesize d).data.headers = normalizeHeaders d.headers ∧
    (synthesize d).data.body = d.body ∧
    (synthesize d).data.originalHttpResponse = true ∧
    synthesize dUnauthorized =
      { code := 401
        message := "HTTP 401: Unauthorized"
        data :=
          { status := 401
            statusText := "Unauthorized"
            headers := [("www-authenticate", "Bearer realm=\"x\"")]
            body := some "Unauthorized"
            originalHttpResponse := true } } :=
  ⟨rfl, rfl, rfl, rfl, rfl, rfl, rfl, by decide⟩

/-- C4: the header normalizer lowercases every name while keeping distinct
names in their original order, sends each entry to its `", "`-joined value
list, and on the set-then-append `WWW-Authenticate` scenario produces the
concatenated challenge under the lowercased name. -/
theorem normalizeHeaders_lowercases_and_joins :
    (∀ h : HeadersM, (normalizeHeaders h).map Prod.fst = h.map (fun p => asciiLower p.1)) ∧
    (∀ (h : HeadersM) (k : String) (vs : List String), (k, vs) ∈ h →
      (asciiLower k, String.intercalate ", " vs) ∈ normalizeHeaders h) ∧
    (∀ h : HeadersM, (normalizeHeaders h).length = h.length) ∧
    List.lookup "www-authenticate"
      (normalizeHeaders
        (happend (hset [] "WWW-Authenticate" "Bearer realm=\"a\"")
          "WWW-Authenticate" "Basic realm=\"b\"")) =
      some "Bearer realm=\"a\", Basic realm=\"b\"" := by
  refine ⟨fun h => ?_, fun h k vs hm => List.mem_map_of_mem _ hm, fun h => ?_, by decide⟩ <;>
    simp [normalizeHeaders]

/-- C4 witness: a name with three values is sent to its lowercased form
with the three values joined in insertion order. -/
theorem normalizeHeaders_join_witness :
    ("www-authenticate", "a, b, c") ∈
      normalizeHeaders [("WWW-Authenticate", ["a", "b", "c"])] :=
  normalizeHeaders_lowercases_and_joins.2.1
    [("WWW-Authenticate", ["a", "b", "c"])] "WWW-Authenticate" ["a", "b", "c"]
    (by decide)

/-- C5: the error reconstructed from a native HTTP response carries the
response's status, status text and headers as received, the body read as
text, the response value itself, and the transport message template
`Error POSTing to endpoint (HTTP {status}): {body-or-statusText}`; at the
integration-test descriptor this reproduces the asserted message and the
case-insensitive `WWW-Authenticate` lookup. -/
theorem reconstructFromResponse_fields (r : NativeResponse) :
    (reconstructFromResponse r).status = r.status ∧
    (reconstructFromResponse r).statusText = r.statusText ∧
    (reconstructFromResponse r).headers = r.headers ∧
    (reconstructFromResponse r).body = some r.bodyText ∧
    (reconstructFromResponse r).response = r ∧
    (reconstructFromResponse r).message =
      "Error POSTing to endpoint (HTTP " ++ toString r.status ++ "): " ++
        (if r.bodyText = "" then r.statusText else r.bodyText) ∧
    (clientErrorNative dStreamTest).message =
      "Error POSTing to endpoint (HTTP 401): Unauthorized" ∧
    hget (clientErrorNative dStreamTest).headers "WWW-Authenticate" =
      some "Bearer realm=\"api.example.com\", error=\"invalid_token\"" ∧
    hget (clientErrorNative dStreamTest).headers "www-authenticate" =
      some "Bearer realm=\"api.example.com\", error=\"invalid_token\"" :=
  ⟨rfl, rfl, rfl, rfl, rfl, rfl, by decide, by decide, by decide⟩

/-- C6 counterexample: an `Error` instance whose `headers` property is a
number passes `isHttpResponseError`, yet `extractHttpErrorInfo` throws
while enumerating its entries instead of returning the `http_response`
record the claim promises. -/
theorem extract_throws_on_nonheaders :
    isHttpResponseError vBadHeaders = true ∧ extractHttpErrorInfo vBadHeaders = none :=
  ⟨rfl, rfl⟩

/-- C6 (amended): when the guard rejects, the extractor returns
`other_error` with the value unchanged; when the guard accepts and the
`headers` property is a `Headers` object, it returns the `http_response`
record built from the error's fields with headers enumerated as a plain
mapping; when the guard accepts but `headers` supports no entries
enumeration, the call throws instead of returning. -/
theorem extractHttpErrorInfo_branches (v : JSValue) :
    (isHttpResponseError v = false → extractHttpErrorInfo v = some (.otherError v)) ∧
    (∀ h : HeadersM, isHttpResponseError v = true →
      getProp v "headers" = .headersObj h →
      extractHttpErrorInfo v =
        some (.httpResponse (getProp v "status") (getProp v "statusText")
          (getProp v "body") (hentries h) (getProp v "response"))) ∧
    (isHttpResponseError v = true → entriesOf (getProp v "headers") = none →
      extractHttpErrorInfo v = none) := by
  refine ⟨fun hf => ?_, fun h ht hh => ?_, fun ht he => ?_⟩
  · simp [extractHttpErrorInfo, hf]
  · simp [extractHttpErrorInfo, ht, hh, entriesOf]
  · simp [extractHttpErrorInfo, ht, he]

/-- C6 witness: on a well-formed reconstructed error the extractor returns
the populated `http_response` record. -/
theorem extractHttpErrorInfo_branches_witness :
    extractHttpErrorInfo vGoodErr =
      some (.httpResponse (.num 401) (.str "Unauthorized") (.str "b")
        [("x", "a")] (.responseObj rSample)) :=
  (extractHttpErrorInfo_branches vGoodErr).2.1 [("x", ["a"])] rfl rfl

/-- C7: for any transport capability, an ordinary thrown error passes
through the interceptor to the surrounding RPC error path unchanged, and
the dispatch result for it carries no synthesized RPC error payload at
all (so in particular none tagged `originalHttpResponse: true`). -/
theorem ordinary_error_not_wrapped :
    (∀ (t : Bool) (e : JSValue),
      dispatch t (.otherError e) = .ordinaryError e) ∧
    (∀ (t : Bool) (e : JSValue),
      dispatchPayload (dispatch t (.otherError e)) = none) :=
  ⟨fun _ _ => rfl, fun _ _ => rfl⟩

/-- C8: when the descriptor omits its status text the synthesizer uses the
empty string for `data.statusText` and the message template still
renders, ending after the colon and space. -/
theorem synthesize_default_statusText (d : Descriptor) (h : d.statusText = none) :
    (synthesize d).data.statusText = "" ∧
    (synthesize d).message = "HTTP " ++ toString d.status ++ ": " := by
  constructor <;> simp [synthesize, h]

/-- C8 witness: a 401 descriptor without status text synthesizes the
message `HTTP 401: `. -/
theorem synthesize_default_statusText_witness :
    (synthesize d401NoText).message = "HTTP 401: " :=
  (synthesize_default_statusText d401NoText rfl).2

/-- C9: the guard returns true exactly for `Error` instances carrying
`status`, `response` and `headers` properties: a plain object is always
rejected (even duck-typed with every HTTP field), the tag
`originalHttpResponse` is never inspected, and an `Error` with the three
properties of arbitrary types and no `body` or `statusText` is
accepted. -/
theorem isHttpResponseError_shape :
    (∀ v : JSValue, isHttpResponseError v =
      (isErrorInstance v && hasProp v "status" && hasProp v "response" &&
        hasProp v "headers")) ∧
    (∀ ps : List (String × JSValue), isHttpResponseError (JSValue.obj ps) = false) ∧
    (∀ m : String,
      isHttpResponseError (JSValue.error m [("originalHttpResponse", JSValue.bool true)]) = false) ∧
    isHttpResponseError vDuckObject = false ∧
    isHttpResponseError vOddTypedError = true :=
  ⟨isHttpResponseError_shape_eq, fun _ => rfl, fun _ => rfl, rfl, rfl⟩

/-- C10: enumerating a `Headers` object yields one pair per name with the
name's values combined into a single `", "`-joined string, so two headers
objects differing only in value multiplicity extract to identical
records and the original multiplicity is not recoverable. -/
theorem extract_headers_single_valued :
    (∀ h : HeadersM, entriesOf (JSValue.headersObj h) =
      some (h.map (fun p => (p.1, String.intercalate ", " p.2)))) ∧
    hentries cookieMulti = hentries cookieJoined ∧
    cookieMulti ≠ cookieJoined ∧
    extractHttpErrorInfo (mkCookieErr cookieMulti) =
      extractHttpErrorInfo (mkCookieErr cookieJoined) ∧
    extractHttpErrorInfo (mkCookieErr cookieMulti) =
      some (.httpResponse (.num 200) .undefined .undefined [("set-cookie", "a, b")] .null) :=
  ⟨fun h => rfl, by decide, by decide, rfl, rfl⟩
